import Mathlib

/-!
Shallow embedding of `superdesk/io/feeding_services/bbc_ldrs.py`
(`BBCLDRSFeedingService`): the connectivity probe `_test`, the paginated
fetch loop `_fetch_data`, and the parse loop of `_update`.

The HTTP layer is abstracted as an environment `env : Nat → ReqResult`
mapping the `offset` query parameter of a request to its outcome: either a
`requests.exceptions.ConnectionError` or a `Response` record (carrying the
fields the code reads: `ok`, `status_code`, `text`, `reason`).  Since the
Python loop is `while True`, the Lean loop takes an explicit fuel bound and
reports `out` when the fuel runs out; termination claims show the real run
never reaches `out` for sufficient fuel.
-/

namespace BBCLDRS

/-- Outcome of one call to `requests.get`: the fields of the response object
the code reads. -/
structure Response where
  ok : Bool
  status_code : Nat
  text : String
  reason : String
deriving DecidableEq

/-- Result of issuing one HTTP request: a transport-level
`requests.exceptions.ConnectionError`, or a response. -/
inductive ReqResult where
  | conn (err : String)
  | resp (r : Response)
deriving DecidableEq

/-- Exceptions the code can raise.  The four `IngestApiError` factory calls
used by `bbc_ldrs.py`, the `ParserError.parseMessageError` of `_update`, and
the built-in Python `AttributeError` raised by calling `.group()` on the
`None` returned by a failed `re.search`.  Payload strings mirror the
arguments the code passes (`exception` cause, `provider`, `data`). -/
inductive PyExn where
  | ingestConnectionError (exception : String)
  | ingestAuthError (exception : String) (provider : String)
  | ingestNotFoundError (exception : String) (provider : String)
  | ingestGeneralError (exception : String) (provider : String)
  | parseMessageError (exception : String) (provider : String) (data : String)
  | attributeError
deriving DecidableEq

/-! Regex modelling.  The code runs
`re.search('\"total\": *[0-9]*', response.text).group()` followed by
`re.search('[0-9]+', item_ident).group()`.  Both patterns are literal text
plus space/digit quantifiers, so they are modelled directly on `List Char`. -/

/-- Leftmost suffix of `s` that starts with `pat` (the suffix from the
leftmost occurrence of the literal pattern), `none` when `pat` does not occur:
the position where `re.search` of a literal finds its match. -/
def findSuffix (pat : List Char) : List Char → Option (List Char)
  | [] => if pat.isPrefixOf ([] : List Char) then some [] else none
  | c :: rest =>
      if pat.isPrefixOf (c :: rest) then some (c :: rest) else findSuffix pat rest

/-- Literal part of the pattern `\"total\": *[0-9]*`. -/
def totalPat : List Char := "\"total\":".toList

/-- Model of `re.search('\"total\": *[0-9]*', text)`: the matched text
(`.group()`) at the leftmost occurrence of `\"total\":`, extended greedily by
spaces then digits; `none` models `re.search` returning `None`. -/
def searchTotalGroup (text : List Char) : Option (List Char) :=
  match findSuffix totalPat text with
  | none => none
  | some s =>
      let rest := s.drop totalPat.length
      let sp := rest.takeWhile (fun c => c = ' ')
      let ds := (rest.dropWhile (fun c => c = ' ')).takeWhile Char.isDigit
      some (totalPat ++ sp ++ ds)

/-- Model of `re.search('[0-9]+', s)`: the first maximal digit run, `none`
when `s` has no digit. -/
def searchDigits : List Char → Option (List Char)
  | [] => none
  | c :: rest =>
      if c.isDigit then some (c :: rest.takeWhile Char.isDigit) else searchDigits rest

/-- Model of Python `int` on a non-empty digit string. -/
def digitsToNat (ds : List Char) : Nat :=
  ds.foldl (fun n c => 10 * n + (c.toNat - 48)) 0

/-- The two-step extraction of the `total` count from a response body.
Returns `none` exactly when one of the two `.group()` calls is made on
`None`, i.e. when Python raises `AttributeError`.  Note the code's
`if results_str is None` guard is unreachable: `.group()` never returns
`None`, it either raises or returns the matched string. -/
def extractTotal (text : String) : Option Nat :=
  match searchTotalGroup text.toList with
  | none => none
  | some ident =>
      match searchDigits ident with
      | none => none
      | some ds => some (digitsToNat ds)

/-- Marker string of the auth check: `re.match('Error: No API Key provided',
response.text)`.  `re.match` anchors at the start of the string. -/
def noApiKeyMarker : String := "Error: No API Key provided"

/-- Model of `re.match('Error: No API Key provided', response.text)`
succeeding: the body starts with the marker. -/
def matchNoApiKey (text : String) : Bool :=
  noApiKeyMarker.toList.isPrefixOf text.toList

/-- Substring containment (what `re.search` of the literal marker would
test); used to compare the anchored `re.match` against a "contains" reading. -/
def containsSub (pat s : List Char) : Bool :=
  (findSuffix pat s).isSome

/-! The connectivity probe `_test`.  It issues a single request (with
`limit=1, fields=id`) and classifies the outcome; it never reads the body. -/

/-- Result of the probe: normal return or a raised exception. -/
inductive ProbeResult where
  | ok
  | err (e : PyExn)
deriving DecidableEq

/-- Model of `BBCLDRSFeedingService._test`: classify the outcome of the
probe's single request. -/
def probe_test (provider : String) (req : ReqResult) : ProbeResult :=
  match req with
  | .conn e => .err (.ingestConnectionError e)
  | .resp r =>
      if r.ok then .ok
      else if r.status_code = 404 then .err (.ingestNotFoundError r.reason provider)
      else .err (.ingestGeneralError r.reason provider)

/-! The fetch loop `_fetch_data`. -/

/-- The fixed page size: `offset_jump = 10` in the code. -/
def offset_jump : Nat := 10

/-- Local state of the `while True` loop: the current `offset`, the
accumulated `items`, and the number of requests issued so far (the latter is
implicit in the Python code; it counts calls to `requests.get`). -/
structure FetchState where
  offset : Nat
  items : List String
  requests : Nat
deriving DecidableEq

/-- Result of running the loop: normal return with the accumulated page
bodies, a raised exception, or fuel exhaustion (an artifact of bounding the
unbounded Python loop; never reached in terminating runs).  Both `ok` and
`err` record how many requests were issued. -/
inductive FetchResult where
  | ok (items : List String) (requests : Nat)
  | err (e : PyExn) (requests : Nat)
  | out (st : FetchState)
deriving DecidableEq

/-- One-to-one model of the `while True` loop body of `_fetch_data`,
bounded by `fuel`.  Each iteration issues the request at the current offset,
then: connection failure raises `apiConnectionError`; on an ok response the
`total` count is extracted (`AttributeError` when the regex finds nothing),
the whole body is appended when the count is positive, the loop returns once
`offset >= num_results`, and otherwise `offset += offset_jump`; on a non-ok
response the anchored auth-marker check has priority over the 404 and
general branches. -/
def fetchLoop (provider : String) (env : Nat → ReqResult) : Nat → FetchState → FetchResult
  | 0, st => .out st
  | fuel + 1, st =>
      match env st.offset with
      | .conn e => .err (.ingestConnectionError e) (st.requests + 1)
      | .resp r =>
          if r.ok then
            match extractTotal r.text with
            | none => .err .attributeError (st.requests + 1)
            | some num_results =>
                let items := if 0 < num_results then st.items ++ [r.text] else st.items
                if num_results ≤ st.offset then
                  .ok items (st.requests + 1)
                else
                  fetchLoop provider env fuel ⟨st.offset + offset_jump, items, st.requests + 1⟩
          else
            if matchNoApiKey r.text then
              .err (.ingestAuthError r.text provider) (st.requests + 1)
            else if r.status_code = 404 then
              .err (.ingestNotFoundError r.reason provider) (st.requests + 1)
            else
              .err (.ingestGeneralError r.reason provider) (st.requests + 1)

/-- Model of `BBCLDRSFeedingService._fetch_data`: run the loop from
`offset = 0` with empty accumulator. -/
def fetch_data (provider : String) (env : Nat → ReqResult) (fuel : Nat) : FetchResult :=
  fetchLoop provider env fuel ⟨0, [], 0⟩

/-- Accumulated page bodies of a normal return, `none` otherwise. -/
def resultItems : FetchResult → Option (List String)
  | .ok items _ => some items
  | _ => none

/-- Number of requests of a normal return, `none` otherwise. -/
def resultRequests : FetchResult → Option Nat
  | .ok _ reqs => some reqs
  | _ => none

/-- An environment where every page request succeeds and every body reports
the same `total = T` (the regex extraction yields `T` on every page). -/
def goodEnv (env : Nat → ReqResult) (T : Nat) : Prop :=
  ∀ off : Nat, ∃ r : Response,
    env off = .resp r ∧ r.ok = true ∧ extractTotal r.text = some T

/-! The parse loop of `_update`.  The per-item parser (`get_feed_parser` plus
`parser.parse`) is an external capability, modelled as
`parse : String → Except String String`; any failure it raises is wrapped as
`ParserError.parseMessageError(ex, provider, data=item)` and aborts the
whole cycle. -/

/-- Model of the `for item in json_items` loop of
`BBCLDRSFeedingService._update` over the already-fetched page bodies. -/
def update_items (provider : String) (parse : String → Except String String) :
    List String → Except PyExn (List String)
  | [] => .ok []
  | item :: rest =>
      match parse item with
      | .error ex => .error (.parseMessageError ex provider item)
      | .ok parsed =>
          match update_items provider parse rest with
          | .error e => .error e
          | .ok ps => .ok (parsed :: ps)

/-! Concrete environments used by scenario claims. -/

/-- A page body reporting `total = 15` (non-empty, no items needed by the
fetch loop itself). -/
def body15 : String := "\"total\": 15, \"items\": [..]"

/-- Endpoint that always succeeds with `total = 15`. -/
def env15 : Nat → ReqResult := fun _ => .resp ⟨true, 200, body15, "OK"⟩

/-- A page body reporting `total = 5`. -/
def body5 : String := "\"total\": 5, \"items\": [..]"

/-- Endpoint that always succeeds with `total = 5`. -/
def env5 : Nat → ReqResult := fun _ => .resp ⟨true, 200, body5, "OK"⟩

/-- A page body reporting `total = 0`. -/
def body0 : String := "\"total\": 0, \"items\": []"

/-- Endpoint that always succeeds with `total = 0`. -/
def env0 : Nat → ReqResult := fun _ => .resp ⟨true, 200, body0, "OK"⟩

/-- A successful body with no `\"total\"` field at all. -/
def bodyNoTotal : String := "\"items\": []"

/-- Endpoint that always succeeds with a body missing `total`. -/
def envNoTotal : Nat → ReqResult := fun _ => .resp ⟨true, 200, bodyNoTotal, "OK"⟩

/-- A non-ok body that contains the auth marker but does not start with it. -/
def authBodyInner : String := "x Error: No API Key provided"

/-- Endpoint returning a 404 whose body contains (not starts with) the auth
marker. -/
def envAuthInner : Nat → ReqResult := fun _ => .resp ⟨false, 404, authBodyInner, "Not Found"⟩

/-- Endpoint returning a 404 whose body is exactly the auth marker. -/
def envAuthExact : Nat → ReqResult := fun _ => .resp ⟨false, 404, noApiKeyMarker, "Not Found"⟩

/-- Endpoint where every request fails at the transport level. -/
def envConnFail : Nat → ReqResult := fun _ => .conn "connection refused"

/-! Helper lemmas about the fetch loop, shared by the claim theorems. -/

/-- With `total = 0` reported on every page, the loop returns the
accumulator unchanged after one request, from any state. -/
theorem fetchLoop_zero_total (provider : String) (env : Nat → ReqResult)
    (hg : goodEnv env 0) (fuel o reqs : Nat) (acc : List String) :
    fetchLoop provider env (fuel + 1) ⟨o, acc, reqs⟩ = .ok acc (reqs + 1) := by
  obtain ⟨r, hr, hok, htot⟩ := hg o
  simp [fetchLoop, hr, hok, htot]

/-- Main loop lemma for a consistent positive total `T`: from offset `o` the
loop performs exactly `(T - o + 9) / 10 + 1` further requests, appends that
many page bodies, and returns normally. -/
theorem fetchLoop_run (provider : String) (env : Nat → ReqResult) (T : Nat)
    (hT : 0 < T) (hg : goodEnv env T) :
    ∀ (fuel o reqs : Nat) (acc : List String),
      (T - o + 9) / 10 + 1 ≤ fuel →
      ∃ tail : List String,
        fetchLoop provider env fuel ⟨o, acc, reqs⟩ =
          .ok (acc ++ tail) (reqs + ((T - o + 9) / 10 + 1)) ∧
        tail.length = (T - o + 9) / 10 + 1 := by
  intro fuel
  induction fuel with
  | zero => intro o reqs acc h; omega
  | succ fuel ih =>
    intro o reqs acc h
    obtain ⟨r, hr, hok, htot⟩ := hg o
    by_cases hle : T ≤ o
    · have h0 : (T - o + 9) / 10 = 0 := by omega
      refine ⟨[r.text], ?_, by simp [h0]⟩
      simp [fetchLoop, hr, hok, htot, hT, hle, h0]
    · have hrec : (T - (o + 10) + 9) / 10 + 1 ≤ fuel := by omega
      obtain ⟨tail, htail, hlen⟩ := ih (o + 10) (reqs + 1) (acc ++ [r.text]) hrec
      refine ⟨r.text :: tail, ?_, ?_⟩
      · have hstep : fetchLoop provider env (fuel + 1) ⟨o, acc, reqs⟩ =
            fetchLoop provider env fuel ⟨o + offset_jump, acc ++ [r.text], reqs + 1⟩ := by
          simp [fetchLoop, hr, hok, htot, hT, hle]
        rw [hstep]
        show fetchLoop provider env fuel ⟨o + 10, acc ++ [r.text], reqs + 1⟩ = _
        rw [htail]
        have harith : (reqs + 1) + ((T - (o + 10) + 9) / 10 + 1) =
            reqs + ((T - o + 9) / 10 + 1) := by omega
        rw [harith]
        simp
      · simp [hlen]; omega

/-- C1 (counterexample): with `total = 15` and page size 10 reported on every
successful page, the walk returns 3 raw page bodies after 3 requests, not 2:
at the page with `offset = 10` the check `10 >= 15` fails, so a further
request at `offset = 20` is issued and its body appended. -/
theorem c1_counterexample :
    (resultItems (fetch_data "p" env15 10)).map List.length = some 3 ∧
    resultRequests (fetch_data "p" env15 10) = some 3 ∧
    (resultItems (fetch_data "p" env15 10)).map List.length ≠ some 2 := by
  decide

/-- C1 (amended): for the `total = 15, limit = 10` scenario, `fetch` returns
a sequence of exactly 3 raw page bodies and issues its last request at
`offset = 20`: the offset check happens before the increment, so the walk
ends only after the page at offset 20 reports `20 >= 15`. -/
theorem c1_scenario_total15 :
    fetch_data "p" env15 10 = .ok [body15, body15, body15] 3 := by
  decide

/-- C2 (counterexample): with `total = 5` and `limit = 10`, the smallest `k`
with `k * 10 >= 5` is 1 (since `1 * 10 >= 5` and not `0 * 10 >= 5`), yet the
walk issues 2 requests. -/
theorem c2_counterexample :
    resultRequests (fetch_data "p" env5 10) = some 2 ∧
    5 ≤ 1 * 10 ∧ ¬ (5 ≤ 0 * 10) ∧ (2 : Nat) ≠ 1 := by
  decide

/-- C2 (amended): for every consistently reported `total = T > 0` with page
size 10, a fully successful walk issues exactly `k + 1` requests, where `k`
is the smallest number with `k * 10 >= T` (one more than the claim states:
the exit check runs before the offset increment, so one final page beyond
the last populated one is always requested). -/
theorem c2_requests_smallest_k_plus_one (provider : String) (env : Nat → ReqResult)
    (T k fuel : Nat) (hT : 0 < T) (hg : goodEnv env T)
    (hk1 : T ≤ k * 10) (hk2 : ∀ j : Nat, T ≤ j * 10 → k ≤ j)
    (hfuel : k + 1 ≤ fuel) :
    resultRequests (fetch_data provider env fuel) = some (k + 1) := by
  have hkeq : k = (T + 9) / 10 := by
    have h1 : (T + 9) / 10 ≤ k := by omega
    have h2 : k ≤ (T + 9) / 10 := hk2 _ (by omega)
    omega
  subst hkeq
  obtain ⟨tail, htail, hlen⟩ :=
    fetchLoop_run provider env T hT hg fuel 0 0 [] (by omega)
  simp only [fetch_data, htail, resultRequests]
  congr 1
  omega

/-- C2 (witness): instantiation at `total = 5`, `k = 1`, fuel 10. -/
theorem c2_witness : resultRequests (fetch_data "p" env5 10) = some (1 + 1) :=
  c2_requests_smallest_k_plus_one "p" env5 5 1 10 (by decide)
    (fun _ => ⟨⟨true, 200, body5, "OK"⟩, rfl, rfl, by decide⟩)
    (by decide) (fun j hj => by omega) (by decide)

/-- C3 (counterexample): a non-ok 404 response whose body merely contains
(but does not start with) `Error: No API Key provided` is classified as
`apiNotFoundError`, not `apiAuthError`: the code uses the anchored
`re.match`, so "contains" is not enough. -/
theorem c3_counterexample :
    containsSub noApiKeyMarker.toList authBodyInner.toList = true ∧
    fetch_data "p" envAuthInner 10 = .err (.ingestNotFoundError "Not Found" "p") 1 ∧
    fetch_data "p" envAuthInner 10 ≠ .err (.ingestAuthError authBodyInner "p") 1 := by
  decide

/-- C3 (amended): for every non-ok response whose body starts with
`Error: No API Key provided`, the walk raises `apiAuthError` carrying the
body, regardless of the status code (404 included): the anchored body check
has priority over the 404 and general branches. -/
theorem c3_auth_marker_priority (provider : String) (env : Nat → ReqResult)
    (fuel : Nat) (st : FetchState) (r : Response)
    (hr : env st.offset = .resp r) (hok : r.ok = false)
    (hmark : matchNoApiKey r.text = true) (hf : 0 < fuel) :
    fetchLoop provider env fuel st = .err (.ingestAuthError r.text provider) (st.requests + 1) := by
  cases fuel with
  | zero => omega
  | succ f => simp [fetchLoop, hr, hok, hmark]

/-- C3 (witness): a 404 response whose body is exactly the marker raises
`apiAuthError`, not `apiNotFoundError`. -/
theorem c3_witness :
    fetch_data "p" envAuthExact 1 = .err (.ingestAuthError noApiKeyMarker "p") 1 :=
  c3_auth_marker_priority "p" envAuthExact 1 ⟨0, [], 0⟩
    ⟨false, 404, noApiKeyMarker, "Not Found"⟩ rfl rfl (by decide) (by decide)

/-- C4 (code bug, evaluated at the failing input): on an ok response whose
body has no `\"total\"` pattern, `re.search` returns `None` and `.group()`
raises `AttributeError`; the `apiGeneralError` the claim (and the dead
`if results_str is None` guard) call for is never raised. -/
theorem c4_missing_total_attribute_error :
    extractTotal bodyNoTotal = none ∧
    fetch_data "p" envNoTotal 10 = .err .attributeError 1 ∧
    fetch_data "p" envNoTotal 10 ≠ .err (.ingestGeneralError bodyNoTotal "p") 1 := by
  decide

/-- C5: when the first page reports `total = 0`, `fetch` returns the empty
sequence after exactly one request. -/
theorem c5_total_zero (provider : String) (env : Nat → ReqResult) (fuel : Nat)
    (hg : goodEnv env 0) (hf : 0 < fuel) :
    fetch_data provider env fuel = .ok [] 1 := by
  cases fuel with
  | zero => omega
  | succ f => exact fetchLoop_zero_total provider env hg f 0 0 []

/-- C5 (witness): concrete endpoint reporting `total = 0`. -/
theorem c5_witness : fetch_data "p" env0 3 = .ok [] 1 :=
  c5_total_zero "p" env0 3
    (fun _ => ⟨⟨true, 200, body0, "OK"⟩, rfl, rfl, by decide⟩) (by decide)

/-- C6: a transport-level connection failure on the current page request (at
any state of the walk, first page or later, any accumulated pages) raises
`apiConnectionError` wrapping the cause immediately: the result is an error
exposing no items, so pages accumulated before the failure are discarded. -/
theorem c6_connection_failure (provider : String) (env : Nat → ReqResult)
    (fuel : Nat) (st : FetchState) (e : String)
    (hr : env st.offset = .conn e) (hf : 0 < fuel) :
    fetchLoop provider env fuel st = .err (.ingestConnectionError e) (st.requests + 1) ∧
    resultItems (fetchLoop provider env fuel st) = none := by
  cases fuel with
  | zero => omega
  | succ f =>
    have h : fetchLoop provider env (f + 1) st =
        .err (.ingestConnectionError e) (st.requests + 1) := by
      simp [fetchLoop, hr]
    exact ⟨h, by simp [h, resultItems]⟩

/-- C6 (witness): mid-walk failure with one page already accumulated; the
accumulated page is not exposed. -/
theorem c6_witness :
    fetchLoop "p" envConnFail 5 ⟨10, [body15], 1⟩ =
      .err (.ingestConnectionError "connection refused") 2 ∧
    resultItems (fetchLoop "p" envConnFail 5 ⟨10, [body15], 1⟩) = none :=
  c6_connection_failure "p" envConnFail 5 ⟨10, [body15], 1⟩ "connection refused"
    rfl (by decide)

/-- C7: when the per-item parser fails on some raw page and all earlier
pages parse fine, `_update` raises `parseMessageError` wrapping the original
cause together with the provider and the offending raw data, and returns no
normalized items at all. -/
theorem c7_parse_failure_aborts (provider : String)
    (parse : String → Except String String) (pre post : List String)
    (item ex : String) (hfail : parse item = .error ex)
    (hpre : ∀ p ∈ pre, ∃ v, parse p = .ok v) :
    update_items provider parse (pre ++ item :: post) =
      .error (.parseMessageError ex provider item) := by
  induction pre with
  | nil => simp [update_items, hfail]
  | cons p rest ih =>
    obtain ⟨v, hv⟩ := hpre p (by simp)
    have hrest := ih (fun q hq => hpre q (by simp [hq]))
    simp [update_items, hv, hrest]

/-- C7 (witness): parser failing on the second of three raw pages yields the
wrapped `parseMessageError` and no items. -/
theorem c7_witness :
    update_items "prov"
        (fun s => if s = "page2" then Except.error "boom" else Except.ok s)
        ["page1", "page2", "page3"] =
      .error (.parseMessageError "boom" "prov" "page2") :=
  c7_parse_failure_aborts "prov"
    (fun s => if s = "page2" then Except.error "boom" else Except.ok s)
    ["page1"] ["page3"] "page2" "boom" rfl
    (fun p hp => by simp at hp; subst hp; exact ⟨"page1", rfl⟩)

/-- C8: the probe classifies its single request exactly as claimed: a
connection failure raises `apiConnectionError` wrapping the cause; an ok
response returns normally; a non-ok 404 raises `apiNotFoundError` with the
reason phrase; any other non-ok status raises `apiGeneralError` with the
reason phrase. -/
theorem c8_probe_classification (provider e : String) (r : Response) :
    probe_test provider (.conn e) = .err (.ingestConnectionError e) ∧
    (r.ok = true → probe_test provider (.resp r) = .ok) ∧
    (r.ok = false → r.status_code = 404 →
      probe_test provider (.resp r) = .err (.ingestNotFoundError r.reason provider)) ∧
    (r.ok = false → r.status_code ≠ 404 →
      probe_test provider (.resp r) = .err (.ingestGeneralError r.reason provider)) :=
  ⟨rfl,
   fun h => by simp [probe_test, h],
   fun h1 h2 => by simp [probe_test, h1, h2],
   fun h1 h2 => by simp [probe_test, h1, h2]⟩

/-- C8 (witness): one concrete response per branch. -/
theorem c8_witness :
    probe_test "p" (.conn "refused") = .err (.ingestConnectionError "refused") ∧
    probe_test "p" (.resp ⟨true, 200, "body", "OK"⟩) = .ok ∧
    probe_test "p" (.resp ⟨false, 404, "nf", "Not Found"⟩) =
      .err (.ingestNotFoundError "Not Found" "p") ∧
    probe_test "p" (.resp ⟨false, 500, "oops", "Server Error"⟩) =
      .err (.ingestGeneralError "Server Error" "p") :=
  ⟨(c8_probe_classification "p" "refused" ⟨true, 200, "body", "OK"⟩).1,
   (c8_probe_classification "p" "refused" ⟨true, 200, "body", "OK"⟩).2.1 rfl,
   (c8_probe_classification "p" "refused" ⟨false, 404, "nf", "Not Found"⟩).2.2.1 rfl rfl,
   (c8_probe_classification "p" "refused" ⟨false, 500, "oops", "Server Error"⟩).2.2.2
     rfl (by decide)⟩

/-- C9: the page walk terminates.  For a consistently reported total `T`
(page size fixed at 10 > 0, offset starting at 0 and increasing by 10 per
continuing iteration) the walk returns normally after exactly
`(T + 9) / 10 + 1` requests once given that much fuel — it exits as soon as
the offset reaches `T`; and with `T = 0` it exits on the first iteration
with no item appended. -/
theorem c9_termination (provider : String) (env : Nat → ReqResult) (T fuel : Nat)
    (hg : goodEnv env T) (hfuel : (T + 9) / 10 + 1 ≤ fuel) :
    resultRequests (fetch_data provider env fuel) = some ((T + 9) / 10 + 1) ∧
    (T = 0 → fetch_data provider env fuel = .ok [] 1) := by
  by_cases hT : T = 0
  · subst hT
    cases fuel with
    | zero => omega
    | succ f =>
      have h := fetchLoop_zero_total provider env hg f 0 0 []
      exact ⟨by simp [fetch_data, h, resultRequests], fun _ => h⟩
  · obtain ⟨tail, htail, hlen⟩ :=
      fetchLoop_run provider env T (by omega) hg fuel 0 0 [] (by omega)
    refine ⟨?_, fun h => absurd h hT⟩
    simp only [fetch_data, htail, resultRequests]
    congr 1
    omega

/-- C9 (witness): instantiation at `total = 0` with fuel 5, exercising both
the request count and the first-iteration exit. -/
theorem c9_witness :
    resultRequests (fetch_data "p" env0 5) = some ((0 + 9) / 10 + 1) ∧
    ((0 : Nat) = 0 → fetch_data "p" env0 5 = .ok [] 1) :=
  c9_termination "p" env0 0 5
    (fun _ => ⟨⟨true, 200, body0, "OK"⟩, rfl, rfl, by decide⟩) (by decide)

/-- C10: the probe never raises `apiAuthError` — it does not inspect the
body; even a non-ok response whose body is exactly the missing-API-key
marker is classified only by status: 404 as `apiNotFoundError`, anything
else as `apiGeneralError`. -/
theorem c10_probe_never_auth (provider b p reason : String) (req : ReqResult) :
    probe_test provider req ≠ .err (.ingestAuthError b p) ∧
    probe_test provider (.resp ⟨false, 404, noApiKeyMarker, reason⟩) =
      .err (.ingestNotFoundError reason provider) ∧
    probe_test provider (.resp ⟨false, 500, noApiKeyMarker, reason⟩) =
      .err (.ingestGeneralError reason provider) := by
  refine ⟨?_, rfl, rfl⟩
  match req with
  | .conn e => simp [probe_test]
  | .resp r =>
    by_cases hok : r.ok
    · simp [probe_test, hok]
    · by_cases h404 : r.status_code = 404 <;> simp [probe_test, hok, h404]

/-- C10 (witness): concrete instantiation with the marker body on a 404. -/
theorem c10_witness :
    probe_test "p" (.resp ⟨false, 404, noApiKeyMarker, "Not Found"⟩) =
      .err (.ingestNotFoundError "Not Found" "p") :=
  (c10_probe_never_auth "p" "b" "q" "Not Found" (.conn "x")).2.1

end BBCLDRS
